/-
  Verification of the Uploader_maramihan fax-ingestion pipeline.

  The repository contains several near-duplicate variants of one pipeline:
    - src/sent.js, first document  ("S1"): Sent direction, date-only timestamp
      ("Exam Date: M/D/YYYY"), one day subtracted, random business-hours time.
    - src/sent.js, second document ("SV2"): Received direction, date+time
      timestamp, sender extracted with only the bare PHYSICIAN NAME pattern.
    - src/received.js ("RV"): Received direction, date+time timestamp, sender
      extracted with a primary PHYSICIAN INFORMATION pattern and a fallback.
    - src/unnamed/part_001 ("P1"): Received direction, PM-only timestamp parsed
      through the runtime date parser, lax fax extraction, primary+fallback
      sender, and no failed-folder relocation.
  src/unnamed/part_000 duplicates the Sent pipeline shape with the date+time
  patterns shared below.

  JavaScript regular expressions are embedded through a small backtracking
  matcher (RE) with exactly the leftmost-first, greedy-with-backtracking
  semantics of the JS engine, restricted to the constructs the source uses
  (literals, case-insensitive literals, bounded and unbounded greedy character
  classes, concatenation, ordered alternation).  Every pattern in the source
  has the shape  prefix(group-to-end) , which reFind exploits.  The JS \s
  class is modelled on the ASCII range; the repository normalises all
  whitespace runs to single spaces before matching.
-/
import Mathlib

/-- ASCII whitespace characters matched by the JS \s class (ASCII range). -/
def jsWS (c : Char) : Bool :=
  c = ' ' || c = '\t' || c = '\n' || c = '\r' || c = '\x0b' || c = '\x0c'

/-- Lower-casing of ASCII letters, for case-insensitive (/i) matching. -/
def lowerChar (c : Char) : Char :=
  if 'A' ≤ c ∧ c ≤ 'Z' then Char.ofNat (c.toNat + 32) else c

/-- Regular-expression fragments used by the source patterns. -/
inductive RE where
  | lit : List Char → RE
  | liti : List Char → RE
  | cls : (Char → Bool) → Nat → Nat → RE
  | star : (Char → Bool) → RE
  | plus : (Char → Bool) → RE
  | seq : RE → RE → RE
  | alt : RE → RE → RE

/-- Length of the longest run of characters satisfying p at the head. -/
def leadCount (p : Char → Bool) : List Char → Nat
  | [] => 0
  | c :: rest => if p c then leadCount p rest + 1 else 0

/-- All remainders after matching re against a prefix of the input, listed in
the JS backtracking preference order (greedy quantifiers, ordered
alternation). -/
def remsAfter : RE → List Char → List (List Char)
  | .lit l, s => if l.isPrefixOf s then [s.drop l.length] else []
  | .liti l, s => if (s.take l.length).map lowerChar = l then [s.drop l.length] else []
  | .cls p lo hi, s =>
      let m := min (leadCount p s) hi
      if m < lo then [] else (List.range (m - lo + 1)).map (fun i => s.drop (m - i))
  | .star p, s =>
      let m := leadCount p s
      (List.range (m + 1)).map (fun i => s.drop (m - i))
  | .plus p, s =>
      let m := leadCount p s
      if m = 0 then [] else (List.range m).map (fun i => s.drop (m - i))
  | .seq a b, s => (remsAfter a s).flatMap (remsAfter b)
  | .alt a b, s => remsAfter a s ++ remsAfter b s

/-- Attempt the pattern pre(grp) anchored at the start of s; on success return
the text captured by grp (first match in backtracking order). -/
def capAt (pre grp : RE) (s : List Char) : Option (List Char) :=
  (remsAfter pre s).findSome? (fun ra =>
    match remsAfter grp ra with
    | [] => none
    | rb :: _ => some (ra.take (ra.length - rb.length)))

/-- Leftmost-first unanchored search, as performed by JS String.match: try the
pattern at every start position from the left. -/
def reFind (pre grp : RE) : List Char → Option (List Char)
  | [] => capAt pre grp []
  | c :: rest =>
    match capAt pre grp (c :: rest) with
    | some cap => some cap
    | none => reFind pre grp rest

/-- String-level wrapper for reFind. -/
def reFindS (pre grp : RE) (s : String) : Option String :=
  (reFind pre grp s.toList).map List.asString

/-- One step of whitespace-run squeezing: inWS records whether the previous
character was whitespace (so the run emits a single space). -/
def normAux : Bool → List Char → List Char
  | _, [] => []
  | inWS, c :: rest =>
    if jsWS c then
      if inWS then normAux true rest else ' ' :: normAux true rest
    else c :: normAux false rest

/-- The normalisation text.replace of every whitespace run by a single space,
applied by every parsePdfText variant before matching. -/
def normalizeText (t : String) : String :=
  (normAux false t.toList).asString

/-- Keep only decimal digits: the replace of non-digits by nothing. -/
def cleanDigits (s : String) : String :=
  (s.toList.filter Char.isDigit).asString

/-- The JS String.trim, restricted to ASCII whitespace. -/
def jsTrim (s : String) : String :=
  ((s.toList.dropWhile jsWS).reverse.dropWhile jsWS).reverse.asString

/-- The JS String.padStart with the pad character 0. -/
def padStart (n : Nat) (s : String) : String :=
  if s.length < n then (List.replicate (n - s.length) '0').asString ++ s else s

/-- Decimal value of a digit string. -/
def digitsToNat (l : List Char) : Nat :=
  l.foldl (fun a c => a * 10 + (c.toNat - '0'.toNat)) 0

/-- The JS Number conversion, on the all-digit strings produced by the date
patterns. -/
def jsNumber (s : String) : Int :=
  Int.ofNat (digitsToNat s.toList)

/-- The JS String.split of a date capture at the / separator. -/
def splitSlashAux (cur : List Char) : List Char → List (List Char)
  | [] => [cur.reverse]
  | c :: rest =>
    if c = '/' then cur.reverse :: splitSlashAux [] rest
    else splitSlashAux (c :: cur) rest

def splitSlash (l : List Char) : List (List Char) :=
  splitSlashAux [] l

/-- JS truthiness of a nullable string field: null and the empty string are
falsy, every other string is truthy. -/
def truthy : Option String → Bool
  | none => false
  | some s => !(s == "")

/-- Leap years, as computed by the JS Date object (divisibility test). -/
def isLeapYear (y : Int) : Bool :=
  (y % 4 == 0 && y % 100 != 0) || (y % 400 == 0)

/-- Number of days of the 1-based month m of year y. -/
def monthLen (y m : Int) : Int :=
  if m = 2 then (if isLeapYear y then 29 else 28)
  else if m = 4 ∨ m = 6 ∨ m = 9 ∨ m = 11 then 30
  else 31

/-- The expression new Date(year, month, 0).getDate() of src/sent.js line 76:
day 0 of the 0-based month index m is the last day of the 1-based month m,
with month overflow normalised and with the Date constructor quirk mapping
years 0..99 to 1900..1999. -/
def jsDaysInMonth (year month : Int) : Int :=
  let y0 := if 0 ≤ year ∧ year ≤ 99 then 1900 + year else year
  let y := y0 + Int.fdiv month 12
  let m := Int.fmod month 12
  if m = 0 then monthLen (y - 1) 12 else monthLen y m

/-- Function to format phone number as (xxx) xxx - xxxx; identical in every
variant (e.g. src/sent.js lines 34-39): a 10-character string is split as
slice(0,3), slice(3,6), slice(6); anything else is returned unchanged. -/
def formatPhoneNumber (phone : String) : String :=
  if phone.length = 10 then
    "(" ++ (phone.toList.take 3).asString ++ ") " ++
      ((phone.toList.drop 3).take 3).asString ++ " - " ++
      (phone.toList.drop 6).asString
  else phone

/-- The 12-to-24-hour conversion shared verbatim by the date+time variants
(src/received.js lines 64-66, src/sent.js lines 274-276, src/unnamed/part_000
lines 58-60 and 243-245): let adjustedHour = parseInt(hour); add 12 for PM
unless the hour is 12; map 12 AM to 0. -/
def adjustHour (hour : Nat) (period : String) : Nat :=
  let a1 := if period = "PM" ∧ hour ≠ 12 then hour + 12 else hour
  if period = "AM" ∧ a1 = 12 then 0 else a1

/-- One return value of Math.random(): a real in [0,1).  The values the JS
runtime produces are dyadic rationals, so a sample is modelled exactly as a
fraction num/den; the [0,1) contract is num < den. -/
structure RandFrac where
  num : Nat
  den : Nat
deriving DecidableEq

/-- Math.floor of sample*mul + add for the sample num/den: with x = num/den,
floor(x*mul + add) = (num*mul + add*den) / den in integer division. -/
def RandFrac.floorMulAdd (x : RandFrac) (mul add : Nat) : Nat :=
  (x.num * mul + add * x.den) / x.den

/-- One sample of the Math.random() stream: the three draws taken by
getRandomTime.  The Sent date-only parser consumes one such sample per
document; no other parser reads the stream. -/
structure RandSrc where
  q1 : RandFrac
  q2 : RandFrac
  q3 : RandFrac
deriving DecidableEq

/-- The contract of Math.random(): every draw lies in [0,1). -/
def RandSrc.Valid (r : RandSrc) : Prop :=
  r.q1.num < r.q1.den ∧ r.q2.num < r.q2.den ∧ r.q3.num < r.q3.den

instance (r : RandSrc) : Decidable r.Valid := by
  unfold RandSrc.Valid
  exact instDecidableAnd

/-- Function to generate a random time between 8 AM and 5 PM
(src/sent.js lines 42-49): hour = floor(random()*(17-8)+8),
minute = floor(random()*60), second = floor(random()*60). -/
def getRandomTime (r : RandSrc) : Nat × Nat × Nat :=
  (r.q1.floorMulAdd (17 - 8) 8, r.q2.floorMulAdd 60 0, r.q3.floorMulAdd 60 0)

/-- The record object assembled by the parsers (wire fields of section 6 of
the design).  The JS fields named from and to are called from_ and to_ here
because both are reserved words in Lean. -/
structure Record where
  type : String
  to_ : Option String
  from_ : Option String
  subject : String
  sender : Option String
  createdAt : Option String
  attachment : Option String
  file_extension : Option String
deriving DecidableEq

/- Character classes of the source patterns. -/

def digitC (c : Char) : Bool := c.isDigit
def digitDashC (c : Char) : Bool := c.isDigit || c = '-'
def digitWsDashC (c : Char) : Bool := c.isDigit || jsWS c || c = '-'
def azC (c : Char) : Bool :=
  ('A' ≤ c && c ≤ 'Z') || ('a' ≤ c && c ≤ 'z') || jsWS c || c = ',' || c = '.'
def colonDashC (c : Char) : Bool := c = ':' || c = '-'
def apC (c : Char) : Bool := c = 'A' || c = 'P'
def pOnlyC (c : Char) : Bool := c = 'P'

/- The patterns, one definition per regex literal of the source. -/

/-- Prefix of Exam Date: (d{1,2}/d{1,2}/d{4})  (src/sent.js line 64). -/
def examDatePre : RE := .lit "Exam Date: ".toList

/-- Group of the Exam Date pattern: d{1,2}/d{1,2}/d{4}. -/
def dateGrp : RE :=
  .seq (.cls digitC 1 2) (.seq (.lit ['/'])
    (.seq (.cls digitC 1 2) (.seq (.lit ['/']) (.cls digitC 4 4))))

/-- Prefix of Fax:\s*([0-9-]+) with the i flag (src/sent.js line 95,
src/unnamed/part_001 line 72). -/
def faxPre : RE := .seq (.liti "fax:".toList) (.star jsWS)

/-- Group [0-9-]+ of the lax fax pattern. -/
def faxGrp : RE := .plus digitDashC

/-- Prefix of (?:Fax:|To:|FAX:|TO:)\s*([0-9\s-]+) with the i flag
(src/received.js line 80); under /i the four labels collapse to two. -/
def toPre : RE := .seq (.alt (.liti "fax:".toList) (.liti "to:".toList)) (.star jsWS)

/-- Group [0-9\s-]+ of the strict to pattern. -/
def toGrp : RE := .plus digitWsDashC

/-- The date+time timestamp group d{1,2}/d{1,2}/d{4} d{1,2}:d{2} [AP]M,
parameterised by the period class ([AP] in most variants, [P] in part_001). -/
def tsGrpWith (pp : Char → Bool) : RE :=
  .seq (.cls digitC 1 2) (.seq (.lit ['/'])
    (.seq (.cls digitC 1 2) (.seq (.lit ['/'])
      (.seq (.cls digitC 4 4) (.seq (.lit [' '])
        (.seq (.cls digitC 1 2) (.seq (.lit [':'])
          (.seq (.cls digitC 2 2) (.seq (.lit [' '])
            (.seq (.cls pp 1 1) (.lit ['M'])))))))))))

def tsGrpAP : RE := tsGrpWith apC
def tsGrpPM : RE := tsGrpWith pOnlyC

/-- Empty prefix: the timestamp pattern is a single capture group. -/
def emptyPre : RE := .lit []

/-- Credential alternation (?:MD|M\.D\.|DO|D\.O\.|APN|N\.P\.|M\.D|D\.O|APRN|M\.D|APRN\.)
of the primary physician pattern, in source order including the duplicates
(src/received.js line 91, src/unnamed/part_001 line 81). -/
def credAlt : RE :=
  .alt (.liti "md".toList) (.alt (.liti "m.d.".toList)
    (.alt (.liti "do".toList) (.alt (.liti "d.o.".toList)
      (.alt (.liti "apn".toList) (.alt (.liti "n.p.".toList)
        (.alt (.liti "m.d".toList) (.alt (.liti "d.o".toList)
          (.alt (.liti "aprn".toList) (.alt (.liti "m.d".toList)
            (.liti "aprn.".toList))))))))))

/-- Prefix PHYSICIAN INFORMATION\s* of the primary physician pattern (i flag). -/
def physInfoPre : RE := .seq (.liti "physician information".toList) (.star jsWS)

/-- Group ([A-Z\s,\.]+(?:credentials)) of the primary physician pattern. -/
def physInfoGrp : RE := .seq (.plus azC) credAlt

/-- Prefix PHYSICIAN NAME\s*[:\-]?\s* of the fallback physician pattern (i flag). -/
def physNamePre : RE :=
  .seq (.liti "physician name".toList)
    (.seq (.star jsWS) (.seq (.cls colonDashC 0 1) (.star jsWS)))

/-- Group ([A-Z\s,\.]+) of the fallback physician pattern. -/
def physNameGrp : RE := .plus azC

/-- Fields of a captured timestamp, split as by the six-group re-match of the
capture (month, day, year, hour, minute, period); on the captures produced by
tsGrpWith the two matches agree. -/
def splitTs (l : List Char) :
    Option (List Char × List Char × List Char × List Char × List Char × List Char) :=
  let s1 := l.span Char.isDigit
  match s1.2 with
  | '/' :: r2 =>
    let s2 := r2.span Char.isDigit
    (match s2.2 with
     | '/' :: r4 =>
       let s3 := r4.span Char.isDigit
       (match s3.2 with
        | ' ' :: r6 =>
          let s4 := r6.span Char.isDigit
          (match s4.2 with
           | ':' :: r8 =>
             let s5 := r8.span Char.isDigit
             (match s5.2 with
              | ' ' :: p :: 'M' :: _ => some (s1.1, s2.1, s3.1, s4.1, s5.1, [p, 'M'])
              | _ => none)
           | _ => none)
        | _ => none)
     | _ => none)
  | _ => none

/- Extraction helpers shared by the parser embeddings.  Each variant first
normalises the text and then matches the patterns on the normalised text; the
helpers below take the raw text and normalise internally (the normalisation is
pure, so factoring it into each helper is equivalent to the single
const normalizedText of the source). -/

/-- Capture of the Exam Date pattern on the normalised text (src/sent.js
line 64). -/
def sentV1ExamCapture (text : String) : Option String :=
  reFindS examDatePre dateGrp (normalizeText text)

/-- Capture of the lax Fax pattern on the normalised text (src/sent.js
line 95, src/unnamed/part_001 line 72). -/
def sentV1FaxCapture (text : String) : Option String :=
  reFindS faxPre faxGrp (normalizeText text)

/-- The date adjustment of src/sent.js lines 69-77: subtract one day; on day
underflow step to the previous month and take its last-day count from
new Date(year, month, 0).getDate(); on month underflow step to December of
the previous year.  Returns (year, month, day). -/
def sentV1Adjust (m0 d0 y0 : Int) : Int × Int × Int :=
  let day := d0 - 1
  if day ≤ 0 then
    let month := m0 - 1
    if month ≤ 0 then (y0 - 1, 12, jsDaysInMonth (y0 - 1) 12)
    else (y0, month, jsDaysInMonth y0 month)
  else (y0, m0, day)

/-- The YYYY-MM-DD HH:MM:SS template string of src/sent.js lines 83-89. -/
def fmtYMDHMS (ymd : Int × Int × Int) (hms : Nat × Nat × Nat) : String :=
  padStart 4 (toString ymd.1) ++ "-" ++ padStart 2 (toString ymd.2.1) ++ "-" ++
    padStart 2 (toString ymd.2.2) ++ " " ++ padStart 2 (toString hms.1) ++ ":" ++
    padStart 2 (toString hms.2.1) ++ ":" ++ padStart 2 (toString hms.2.2)

/-- The createdAt field of the Sent date-only variant (src/sent.js lines
63-92): match the Exam Date pattern, split the capture at /, convert with
Number, adjust the date one day earlier and append the random time. -/
def sentV1CreatedAt (r : RandSrc) (text : String) : Option String :=
  match sentV1ExamCapture text with
  | none => none
  | some cap =>
    match (splitSlash cap.toList).map (fun s => jsNumber s.asString) with
    | [m0, d0, y0] => some (fmtYMDHMS (sentV1Adjust m0 d0 y0) (getRandomTime r))
    | _ => none

/-- The createdAt extraction shared verbatim by the date+time variants that
format the components directly (src/received.js lines 56-76, src/sent.js
lines 267-288, src/unnamed/part_000 lines 53-71): match the [AP]M timestamp,
re-split the capture, convert the hour to 24-hour form and render
YYYY-MM-DD HH:MM:00 with the year string kept as captured. -/
def createdAt_dateTime (text : String) : Option String :=
  match reFindS emptyPre tsGrpAP (normalizeText text) with
  | none => none
  | some cap =>
    match splitTs cap.toList with
    | none => none
    | some (mo, dd, yy, hh, mi, per) =>
      let adjusted := adjustHour (digitsToNat hh) per.asString
      some (yy.asString ++ "-" ++ padStart 2 mo.asString ++ "-" ++
        padStart 2 dd.asString ++ " " ++ padStart 2 (toString adjusted) ++ ":" ++
        padStart 2 mi.asString ++ ":" ++ "00")

/-- Modelled from the V8 runtime date parser invoked by new Date(dateStr) in
src/unnamed/part_001 lines 56-67 on strings of the matched shape
M/D/YYYY H:MM PM: the parse is valid when the month is 1..12, the day fits the
month, the clock hour is 1..12 and the minutes are below 60; the getters then
yield the local components, which lines 60-66 format back. -/
def jsDateParseFmt (cap : String) : Option String :=
  match splitTs cap.toList with
  | none => none
  | some (mo, dd, yy, hh, mi, per) =>
    let y : Int := jsNumber yy.asString
    let m : Int := jsNumber mo.asString
    let d : Int := jsNumber dd.asString
    let h := digitsToNat hh
    let mn := digitsToNat mi
    if 1 ≤ m ∧ m ≤ 12 ∧ 1 ≤ d ∧ d ≤ monthLen y m ∧ 1 ≤ h ∧ h ≤ 12 ∧ mn ≤ 59 then
      some (toString y ++ "-" ++ padStart 2 (toString m) ++ "-" ++
        padStart 2 (toString d) ++ " " ++
        padStart 2 (toString (adjustHour h per.asString)) ++ ":" ++
        padStart 2 (toString (mn : Int)) ++ ":" ++ padStart 2 (toString (0 : Int)))
    else none

/-- The createdAt field of src/unnamed/part_001 lines 52-68: the timestamp
pattern accepts only [P]M there; a successful capture is handed to the
runtime date parser and reformatted. -/
def p001CreatedAt (text : String) : Option String :=
  match reFindS emptyPre tsGrpPM (normalizeText text) with
  | none => none
  | some cap => jsDateParseFmt cap

/-- Sender extraction of src/received.js lines 89-101 and
src/unnamed/part_001 lines 79-92: the primary PHYSICIAN INFORMATION pattern
first, the bare PHYSICIAN NAME pattern only on its failure, the capture
trimmed. -/
def recvSender (text : String) : Option String :=
  match reFindS physInfoPre physInfoGrp (normalizeText text) with
  | some cap => some (jsTrim cap)
  | none => (reFindS physNamePre physNameGrp (normalizeText text)).map jsTrim

/-- The strict recipient extraction of src/received.js lines 79-86 and
src/sent.js lines 290-302: the multi-label pattern, digits only, kept only
when exactly 10 digits remain. -/
def recvTo (text : String) : Option String :=
  (reFindS toPre toGrp (normalizeText text)).bind (fun cap =>
    let cleanedTo := cleanDigits cap
    if cleanedTo.length = 10 then some (formatPhoneNumber cleanedTo) else none)

/- The four embedded parsers.  Each builds the record object and then applies
the truthiness validity check of the source. -/

/-- Record assembled by parsePdfText of src/sent.js lines 52-103 (Sent,
date-only variant) before the validity check. -/
def buildRecord_S1 (r : RandSrc) (text : String) : Record :=
  { type := "Sent",
    to_ := some "(207) 261 - 0798",
    from_ := (sentV1FaxCapture text).map (fun cap => formatPhoneNumber (cleanDigits cap)),
    subject := "PRIOR AUTHORIZATION PRESCRIPTION REQUEST",
    sender := some "RIGHT CHOICE MEDICAL SUPPLY",
    createdAt := sentV1CreatedAt r text,
    attachment := none, file_extension := none }

/-- parsePdfText of src/sent.js lines 52-112: return the record when
createdAt, from and sender are all truthy, else null. -/
def parsePdfText_S1 (r : RandSrc) (text : String) : Option Record :=
  let record := buildRecord_S1 r text
  if truthy record.createdAt && truthy record.from_ && truthy record.sender then
    some record
  else none

/-- Record assembled by parsePdfText of src/received.js lines 40-103 before
the validity check. -/
def buildRecord_RV (text : String) : Record :=
  { type := "Received",
    from_ := some "(207) 261 - 0798",
    to_ := recvTo text,
    subject := "PRIOR AUTHORIZATION PRESCRIPTION REQUEST",
    sender := recvSender text,
    createdAt := createdAt_dateTime text,
    attachment := none, file_extension := none }

/-- parsePdfText of src/received.js lines 40-112: valid when createdAt, to
and sender are all truthy. -/
def parsePdfText_RV (text : String) : Option Record :=
  let record := buildRecord_RV text
  if truthy record.createdAt && truthy record.to_ && truthy record.sender then
    some record
  else none

/-- Record assembled by the second document of src/sent.js (lines 251-313 of
the file), a Received-direction variant whose sender extraction consists of
the bare PHYSICIAN NAME pattern only (lines 304-313) with no primary
pattern. -/
def buildRecord_SV2 (text : String) : Record :=
  { type := "Received",
    from_ := some "(207) 261 - 0798",
    to_ := recvTo text,
    subject := "PRIOR AUTHORIZATION PRESCRIPTION REQUEST",
    sender := (reFindS physNamePre physNameGrp (normalizeText text)).map jsTrim,
    createdAt := createdAt_dateTime text,
    attachment := none, file_extension := none }

/-- parsePdfText of the second document of src/sent.js (validity at line
316): valid when createdAt, to and sender are all truthy. -/
def parsePdfText_SV2 (text : String) : Option Record :=
  let record := buildRecord_SV2 text
  if truthy record.createdAt && truthy record.to_ && truthy record.sender then
    some record
  else none

/-- Record assembled by parsePdfText of src/unnamed/part_001 lines 36-95
before the validity check: from is dynamic (lax fax pattern), to fixed. -/
def buildRecord_P1 (text : String) : Record :=
  { type := "Received",
    from_ := (sentV1FaxCapture text).map (fun cap => formatPhoneNumber (cleanDigits cap)),
    to_ := some "(207) 261 - 0798",
    subject := "PRIOR AUTHORIZATION PRESCRIPTION REQUEST",
    sender := recvSender text,
    createdAt := p001CreatedAt text,
    attachment := none, file_extension := none }

/-- parsePdfText of src/unnamed/part_001 lines 36-104: valid when createdAt,
from and sender are all truthy. -/
def parsePdfText_P1 (text : String) : Option Record :=
  let record := buildRecord_P1 text
  if truthy record.createdAt && truthy record.from_ && truthy record.sender then
    some record
  else none

/- Runs of a parser with the ambient Math.random() stream attached.  Each
main pipeline passes one stream to its parser invocations; only the Sent
date-only parser ever samples it, so the Received parsers below ignore the
argument, exactly as their source contains no call of Math.random(). -/

/-- parsePdfText of src/received.js under an ambient random stream. -/
def parsePdfText_RV_run (r : RandSrc) (text : String) : Option Record :=
  parsePdfText_RV text

/-- parsePdfText of src/unnamed/part_001 under an ambient random stream. -/
def parsePdfText_P1_run (r : RandSrc) (text : String) : Option Record :=
  parsePdfText_P1 text

/-- parsePdfText of the second (Received) document of src/sent.js under an
ambient random stream. -/
def parsePdfText_SV2_run (r : RandSrc) (text : String) : Option Record :=
  parsePdfText_SV2 text

/- The file lifecycle.  A run takes the listing of the incoming directory:
for each file the outcome of the external text extraction (null on
ExtractionError) and the raw bytes.  Relocation success is an oracle keyed by
file name, reflecting that renameSync may throw and the error is caught per
file.  The base64 encoding of the attachment is an opaque injective
re-encoding of the bytes performed by the runtime library; it is modelled as
the identity on the content, whose value no claim inspects. -/

/-- One incoming file: its name, the extraction outcome and its content. -/
structure FileInput where
  name : String
  text : Option String
  content : String
deriving DecidableEq

/-- Modelled from the runtime library: fileToBase64 re-encodes the bytes
injectively; the pipeline never inspects the value, so the encoding is
abstracted to the identity. -/
def fileToBase64 (content : String) : String := content

/-- The two assignments record.attachment = fileToBase64(filePath) and
record.file_extension = "pdf" performed on every record pushed for upload. -/
def addUploadFields (f : FileInput) (record : Record) : Record :=
  { record with attachment := some (fileToBase64 f.content),
                file_extension := some "pdf" }

/-- Outcome of the per-file loop of prepareRecordsForUpload in the sent-style
variants (src/sent.js lines 115-145, src/unnamed/part_000 lines 94-124 and
277-307): records pushed, names moved to processed, names collected in
failedFiles, and names whose rename to processed failed (file left in the
incoming folder). -/
structure SentLoopOut where
  records : List Record
  processedNames : List String
  failedFiles : List String
  stuck : List String
deriving DecidableEq

def runSentLoop (parse : String → Option Record) (moveOk : String → Bool) :
    List FileInput → SentLoopOut
  | [] => ⟨[], [], [], []⟩
  | f :: rest =>
    let out := runSentLoop parse moveOk rest
    match f.text with
    | none => ⟨out.records, out.processedNames, f.name :: out.failedFiles, out.stuck⟩
    | some t =>
      match parse t with
      | none => ⟨out.records, out.processedNames, f.name :: out.failedFiles, out.stuck⟩
      | some record =>
        if moveOk f.name then
          ⟨addUploadFields f record :: out.records, f.name :: out.processedNames,
            out.failedFiles, out.stuck⟩
        else
          ⟨addUploadFields f record :: out.records, out.processedNames,
            out.failedFiles, f.name :: out.stuck⟩

/-- The loop moving a list of file names into a failed (or swept) folder;
a rename failure leaves the file in place (second component). -/
def moveFails (moveOk : String → Bool) : List String → (List String × List String)
  | [] => ([], [])
  | n :: rest =>
    let out := moveFails moveOk rest
    if moveOk n then (n :: out.1, out.2) else (out.1, n :: out.2)

/-- Terminal state of one run: the upload list, the processed set, the failed
set, and the files still in the incoming folder. -/
structure RunResult where
  records : List Record
  processed : List String
  failed : List String
  leftover : List String
deriving DecidableEq

/-- The sent-style run (src/sent.js lines 115-159 and the identical loops of
src/unnamed/part_000): the per-file loop collects failedFiles, which a second
loop then moves into the failed folder. -/
def runSentStyle (parse : String → Option Record) (moveOk : String → Bool)
    (files : List FileInput) : RunResult :=
  let out := runSentLoop parse moveOk files
  let moved := moveFails moveOk out.failedFiles
  { records := out.records, processed := out.processedNames,
    failed := moved.1, leftover := out.stuck ++ moved.2 }

/-- Per-file loop of prepareRecordsForUpload in src/received.js lines 115-145
and src/unnamed/part_001 lines 107-137: valid records are pushed and their
files moved to processed; failing files are merely logged and stay in the
incoming folder. -/
def runRecvLoop (parse : String → Option Record) (moveOk : String → Bool) :
    List FileInput → (List Record × List String)
  | [] => ([], [])
  | f :: rest =>
    let out := runRecvLoop parse moveOk rest
    match f.text with
    | none => out
    | some t =>
      match parse t with
      | none => out
      | some record =>
        if moveOk f.name then
          (addUploadFields f record :: out.1, f.name :: out.2)
        else (addUploadFields f record :: out.1, out.2)

/-- The received.js run: after the per-file loop, moveFailedFiles
(src/received.js lines 147-160) sweeps every file still in the incoming
folder into the failed folder. -/
def runReceivedStyle (parse : String → Option Record) (moveOk : String → Bool)
    (files : List FileInput) : RunResult :=
  let out := runRecvLoop parse moveOk files
  let remaining := (files.map FileInput.name).filter (fun n => !(out.2.contains n))
  let moved := moveFails moveOk remaining
  { records := out.1, processed := out.2, failed := moved.1, leftover := moved.2 }

/-- The part_001 run (src/unnamed/part_001 lines 107-137 and its main): no
failed folder exists and no sweep runs; every file that is not moved to
processed stays in the incoming folder. -/
def runP001Style (parse : String → Option Record) (moveOk : String → Bool)
    (files : List FileInput) : RunResult :=
  let out := runRecvLoop parse moveOk files
  { records := out.1, processed := out.2, failed := [],
    leftover := (files.map FileInput.name).filter (fun n => !(out.2.contains n)) }

/- The batch uploader. -/

/-- The slices records.slice(i, i+batchSize) taken by the loop of batchUpload
(src/sent.js lines 168-188) for i = 0, B, 2B, ...; the fuel argument bounds
the iteration count (each iteration consumes at least one record when
batchSize is positive, so fuel = records.length suffices; the JS loop does
not terminate when batchSize is 0). -/
def batchSlices (batchSize : Nat) : Nat → List Record → List (List Record)
  | _, [] => []
  | 0, _ :: _ => []
  | fuel + 1, x :: xs =>
    (List.take batchSize (x :: xs)) :: batchSlices batchSize fuel (List.drop batchSize (x :: xs))

/-- The batches submitted by batchUpload(records, batchSize); the source
default for batchSize is 100. -/
def batchUpload_batches (records : List Record) (batchSize : Nat) : List (List Record) :=
  batchSlices batchSize records.length records

/- Specification-side definitions (from the wording of the claims, to be
compared with the code-side functions above). -/

/-- The calendar predecessor of a date, as the claims describe it: decrement
the day; on day underflow roll back to the previous month with its last-day
count; on month underflow roll back to December of the previous year. -/
def prevCalendarDay (y m d : Int) : Int × Int × Int :=
  if 1 < d then (y, m, d - 1)
  else if 1 < m then (y, m - 1, monthLen y (m - 1))
  else (y - 1, 12, 31)

/-- A sample record used to instantiate universally quantified theorems. -/
def sampleRecord : Record :=
  { type := "Sent", to_ := some "(207) 261 - 0798", from_ := some "(207) 555 - 1234",
    subject := "PRIOR AUTHORIZATION PRESCRIPTION REQUEST",
    sender := some "RIGHT CHOICE MEDICAL SUPPLY",
    createdAt := some "2024-03-14 08:00:00", attachment := none, file_extension := none }

/-- The zero sample of the random stream. -/
def rand0 : RandSrc := ⟨⟨0, 1⟩, ⟨0, 1⟩, ⟨0, 1⟩⟩

/-- An interior sample of the random stream: draws 1/2, 1/3, 2/3. -/
def rand1 : RandSrc := ⟨⟨1, 2⟩, ⟨1, 3⟩, ⟨2, 3⟩⟩

/-- Containment of a pattern in a text, for stating substring hypotheses. -/
def hasInfix (pat : List Char) : List Char → Bool
  | [] => pat.isEmpty
  | c :: rest => pat.isPrefixOf (c :: rest) || hasInfix pat rest

/- Helper lemmas. -/

lemma truthy_some_iff (s : String) : truthy (some s) = true ↔ s ≠ "" := by
  simp [truthy]

lemma validity_isSome (rec : Record) (cond : Bool) :
    (if cond then some rec else none).isSome = cond := by
  cases cond <;> simp

lemma getRandomTime_bounds (r : RandSrc) (hr : r.Valid) :
    8 ≤ (getRandomTime r).1 ∧ (getRandomTime r).1 < 17 ∧
    (getRandomTime r).2.1 < 60 ∧ (getRandomTime r).2.2 < 60 := by
  obtain ⟨h1, h2, h3⟩ := hr
  have d1 : 0 < r.q1.den := Nat.lt_of_le_of_lt (Nat.zero_le _) h1
  have d2 : 0 < r.q2.den := Nat.lt_of_le_of_lt (Nat.zero_le _) h2
  have d3 : 0 < r.q3.den := Nat.lt_of_le_of_lt (Nat.zero_le _) h3
  simp only [getRandomTime, RandFrac.floorMulAdd]
  refine ⟨?_, ?_, ?_, ?_⟩
  · rw [Nat.le_div_iff_mul_le d1]; omega
  · rw [Nat.div_lt_iff_lt_mul d1]; omega
  · rw [Nat.div_lt_iff_lt_mul d2]; omega
  · rw [Nat.div_lt_iff_lt_mul d3]; omega

lemma fmtYMDHMS_ne_empty (ymd : Int × Int × Int) (hms : Nat × Nat × Nat) :
    fmtYMDHMS ymd hms ≠ "" := by
  intro h
  have h2 := congrArg String.length h
  simp only [fmtYMDHMS, String.length_append,
    show ("-" : String).length = 1 from rfl,
    show (" " : String).length = 1 from rfl,
    show (":" : String).length = 1 from rfl,
    show ("" : String).length = 0 from rfl] at h2
  omega

lemma runSentLoop_records (parse : String → Option Record) (mo : String → Bool)
    (files : List FileInput) :
    (runSentLoop parse mo files).records =
      files.filterMap (fun f => (f.text.bind parse).map (addUploadFields f)) := by
  induction files with
  | nil => rfl
  | cons f rest ih =>
    cases hft : f.text with
    | none => simp [runSentLoop, hft, ih]
    | some t =>
      cases hp : parse t with
      | none => simp [runSentLoop, hft, hp, ih]
      | some record => by_cases hm : mo f.name <;> simp [runSentLoop, hft, hp, hm, ih]

lemma runRecvLoop_records (parse : String → Option Record) (mo : String → Bool)
    (files : List FileInput) :
    (runRecvLoop parse mo files).1 =
      files.filterMap (fun f => (f.text.bind parse).map (addUploadFields f)) := by
  induction files with
  | nil => rfl
  | cons f rest ih =>
    cases hft : f.text with
    | none => simp [runRecvLoop, hft, ih]
    | some t =>
      cases hp : parse t with
      | none => simp [runRecvLoop, hft, hp, ih]
      | some record => by_cases hm : mo f.name <;> simp [runRecvLoop, hft, hp, hm, ih]

lemma runSentLoop_failedFiles (parse : String → Option Record) (mo : String → Bool)
    (files : List FileInput) :
    (runSentLoop parse mo files).failedFiles =
      (files.filter (fun f => (f.text.bind parse).isNone)).map FileInput.name := by
  induction files with
  | nil => rfl
  | cons f rest ih =>
    cases hft : f.text with
    | none => simp [runSentLoop, hft, ih]
    | some t =>
      cases hp : parse t with
      | none => simp [runSentLoop, hft, hp, ih]
      | some record => by_cases hm : mo f.name <;> simp [runSentLoop, hft, hp, hm, ih]

lemma runSentLoop_processedNames (parse : String → Option Record)
    (files : List FileInput) :
    (runSentLoop parse (fun _ => true) files).processedNames =
      (files.filter (fun f => (f.text.bind parse).isSome)).map FileInput.name := by
  induction files with
  | nil => rfl
  | cons f rest ih =>
    cases hft : f.text with
    | none => simp [runSentLoop, hft, ih]
    | some t =>
      cases hp : parse t with
      | none => simp [runSentLoop, hft, hp, ih]
      | some record => simp [runSentLoop, hft, hp, ih]

lemma runRecvLoop_processedNames (parse : String → Option Record)
    (files : List FileInput) :
    (runRecvLoop parse (fun _ => true) files).2 =
      (files.filter (fun f => (f.text.bind parse).isSome)).map FileInput.name := by
  induction files with
  | nil => rfl
  | cons f rest ih =>
    cases hft : f.text with
    | none => simp [runRecvLoop, hft, ih]
    | some t =>
      cases hp : parse t with
      | none => simp [runRecvLoop, hft, hp, ih]
      | some record => simp [runRecvLoop, hft, hp, ih]

lemma moveFails_true (ns : List String) : moveFails (fun _ => true) ns = (ns, []) := by
  induction ns with
  | nil => rfl
  | cons n rest ih => simp [moveFails, ih]

lemma nodup_name_inj {files : List FileInput} (h : (files.map FileInput.name).Nodup)
    {f g : FileInput} (hf : f ∈ files) (hg : g ∈ files) (he : f.name = g.name) : f = g := by
  induction files with
  | nil => cases hf
  | cons a rest ih =>
    rw [List.map_cons, List.nodup_cons] at h
    rcases List.mem_cons.mp hf with rfl | hf2
    · rcases List.mem_cons.mp hg with rfl | hg2
      · rfl
      · exact absurd (he ▸ List.mem_map_of_mem FileInput.name hg2) h.1
    · rcases List.mem_cons.mp hg with rfl | hg2
      · exact absurd (he ▸ List.mem_map_of_mem FileInput.name hf2) h.1
      · exact ih h.2 hf2 hg2

lemma batchSlices_join (B : Nat) (hB : 0 < B) :
    ∀ fuel l, l.length ≤ fuel → (batchSlices B fuel l).flatten = l := by
  intro fuel
  induction fuel with
  | zero =>
    intro l hl
    cases l with
    | nil => rfl
    | cons x xs => simp at hl
  | succ fuel ih =>
    intro l hl
    cases l with
    | nil => rfl
    | cons x xs =>
      have hdrop : (List.drop B (x :: xs)).length ≤ fuel := by
        simp only [List.length_drop]
        simp only [List.length_cons] at hl ⊢
        omega
      simp only [batchSlices, List.flatten_cons, ih _ hdrop]
      exact List.take_append_drop B (x :: xs)

lemma batchSlices_length (B : Nat) (hB : 0 < B) :
    ∀ fuel l, l.length ≤ fuel →
      (batchSlices B fuel l).length = (l.length + B - 1) / B := by
  intro fuel
  induction fuel with
  | zero =>
    intro l hl
    cases l with
    | nil => simp [batchSlices, Nat.div_eq_of_lt (show B - 1 < B by omega)]
    | cons x xs => simp at hl
  | succ fuel ih =>
    intro l hl
    cases l with
    | nil => simp [batchSlices, Nat.div_eq_of_lt (show B - 1 < B by omega)]
    | cons x xs =>
      have hdrop : (List.drop B (x :: xs)).length ≤ fuel := by
        simp only [List.length_drop]
        simp only [List.length_cons] at hl ⊢
        omega
      rw [batchSlices, List.length_cons, ih _ hdrop]
      simp only [List.length_drop, List.length_cons]
      rcases le_or_lt (xs.length + 1) B with hle | hlt
      · have h1 : xs.length + 1 - B = 0 := by omega
        rw [h1]
        have h2 : (0 + B - 1) / B = 0 := Nat.div_eq_of_lt (by omega)
        have h3 : xs.length + 1 + B - 1 = xs.length + B := by omega
        rw [h2, h3, Nat.add_div_right _ hB, Nat.div_eq_of_lt (by omega)]
      · have h1 : xs.length + 1 + B - 1 = (xs.length + 1 - B + B - 1) + B := by omega
        rw [h1, Nat.add_div_right _ hB]

lemma batchSlices_sizes (B : Nat) :
    ∀ fuel l b, b ∈ batchSlices B fuel l → b.length ≤ B := by
  intro fuel
  induction fuel with
  | zero =>
    intro l b hb
    cases l with
    | nil => cases hb
    | cons x xs => cases hb
  | succ fuel ih =>
    intro l b hb
    cases l with
    | nil => cases hb
    | cons x xs =>
      rcases List.mem_cons.mp hb with rfl | hb2
      · exact List.length_take_le _ _
      · exact ih _ _ hb2

/-- C3: for every record list and positive batch size B (the source default
is 100), the loop of batchUpload partitions the list into exactly
ceil(N/B) = (N+B-1)/B consecutive slices records.slice(i, i+B), each of
length at most B, whose concatenation in submission order is the original
list. -/
theorem batchUpload_partition (records : List Record) (B : Nat) (hB : 0 < B) :
    (batchUpload_batches records B).length = (records.length + B - 1) / B ∧
    (∀ b ∈ batchUpload_batches records B, b.length ≤ B) ∧
    (batchUpload_batches records B).flatten = records := by
  refine ⟨?_, ?_, ?_⟩
  · exact batchSlices_length B hB records.length records (Nat.le_refl _)
  · intro b hb
    exact batchSlices_sizes B records.length records b hb
  · exact batchSlices_join B hB records.length records (Nat.le_refl _)

/-- Witness for C3 at three records and batch size two. -/
theorem batchUpload_partition_witness :
    (batchUpload_batches [sampleRecord, sampleRecord, sampleRecord] 2).length =
      ([sampleRecord, sampleRecord, sampleRecord].length + 2 - 1) / 2 ∧
    (∀ b ∈ batchUpload_batches [sampleRecord, sampleRecord, sampleRecord] 2,
      b.length ≤ 2) ∧
    (batchUpload_batches [sampleRecord, sampleRecord, sampleRecord] 2).flatten =
      [sampleRecord, sampleRecord, sampleRecord] :=
  batchUpload_partition [sampleRecord, sampleRecord, sampleRecord] 2 (by decide)

/-- C5: formatting splits every 10-character digit string into the groups
d[0:3], d[3:6], d[6:10] rendered as (ddd) ddd - dddd, and is the identity on
every string whose length is not 10. -/
theorem formatPhoneNumber_spec :
    (∀ a b c : String, a.length = 3 → b.length = 3 → c.length = 4 →
      (∀ ch ∈ (a ++ b ++ c).toList, ch.isDigit = true) →
      formatPhoneNumber (a ++ b ++ c) = "(" ++ a ++ ") " ++ b ++ " - " ++ c) ∧
    (∀ s : String, s.length ≠ 10 → formatPhoneNumber s = s) := by
  constructor
  · intro a b c ha hb hc _hdigits
    have hlen : (a ++ b ++ c).length = 10 := by
      simp [String.length_append, ha, hb, hc]
    have hdata : (a ++ b ++ c).toList = a.toList ++ (b.toList ++ c.toList) := by
      show (a ++ b ++ c).data = a.data ++ (b.data ++ c.data)
      simp [String.data_append]
    have hla : a.toList.length = 3 := ha
    have hlb : b.toList.length = 3 := hb
    have htake3 : (a ++ b ++ c).toList.take 3 = a.toList := by
      rw [hdata, ← hla, List.take_left]
    have hdrop3 : (a ++ b ++ c).toList.drop 3 = b.toList ++ c.toList := by
      rw [hdata, ← hla, List.drop_left]
    have htake6 : ((a ++ b ++ c).toList.drop 3).take 3 = b.toList := by
      rw [hdrop3, ← hlb, List.take_left]
    have hdrop6 : (a ++ b ++ c).toList.drop 6 = c.toList := by
      have h6 : (a.toList ++ b.toList).length = 6 := by
        simp [List.length_append, ha, hb]
      rw [hdata, ← List.append_assoc, ← h6, List.drop_left]
    rw [formatPhoneNumber, if_pos hlen, htake3, htake6, hdrop6]
    rfl
  · intro s hs
    rw [formatPhoneNumber, if_neg hs]

/-- Witness for C5 at the digits 2075551234 and at a 5-character string. -/
theorem formatPhoneNumber_spec_witness :
    formatPhoneNumber ("207" ++ "555" ++ "1234") = "(" ++ "207" ++ ") " ++ "555" ++ " - " ++ "1234" ∧
    formatPhoneNumber "12345" = "12345" :=
  ⟨formatPhoneNumber_spec.1 "207" "555" "1234" rfl rfl rfl (by decide),
   formatPhoneNumber_spec.2 "12345" (by decide)⟩

/-- C10: the Received parsers are deterministic.  Every pipeline run carries
the ambient Math.random() stream; the Received parser embeddings do not
depend on it (their source contains no call of Math.random()), so two parses
of the same text under different streams agree field for field, in
src/received.js, src/unnamed/part_001 and the Received variant of
src/sent.js alike. -/
theorem receivedParsers_deterministic (r1 r2 : RandSrc) (t : String) :
    parsePdfText_RV_run r1 t = parsePdfText_RV_run r2 t ∧
    parsePdfText_P1_run r1 t = parsePdfText_P1_run r2 t ∧
    parsePdfText_SV2_run r1 t = parsePdfText_SV2_run r2 t :=
  ⟨rfl, rfl, rfl⟩

/-- C1 counterexample: on the text Exam Date: 3/15/2024 Fax: - the lax fax
extraction of the Sent parser yields the empty string, so createdAt, the
dynamic field from and sender are all non-null, yet parsePdfText returns
null: the validity check is JS truthiness, not the non-null test the claim
states, so the claimed equivalence fails. -/
theorem parserValidity_counterexample :
    (buildRecord_S1 rand0 "Exam Date: 3/15/2024 Fax: -").createdAt ≠ none ∧
    (buildRecord_S1 rand0 "Exam Date: 3/15/2024 Fax: -").from_ = some "" ∧
    (buildRecord_S1 rand0 "Exam Date: 3/15/2024 Fax: -").sender ≠ none ∧
    parsePdfText_S1 rand0 "Exam Date: 3/15/2024 Fax: -" = none :=
  ⟨by decide, by decide, by decide, by decide⟩

/-- C1 (amended): the Field Parser returns a record exactly when createdAt,
the extracted dynamic party field (from for Sent, to for received.js) and
sender are all truthy, that is non-null and non-empty; and the upload list of
a run consists exactly of the records of the successful parses (with the
attachment fields added), so a null candidate is never appended and never
uploaded. -/
theorem parserValidity_truthiness (r : RandSrc) (t : String) (moveOk : String → Bool)
    (files : List FileInput) :
    ((parsePdfText_S1 r t).isSome =
      (truthy (buildRecord_S1 r t).createdAt && truthy (buildRecord_S1 r t).from_ &&
        truthy (buildRecord_S1 r t).sender)) ∧
    ((parsePdfText_RV t).isSome =
      (truthy (buildRecord_RV t).createdAt && truthy (buildRecord_RV t).to_ &&
        truthy (buildRecord_RV t).sender)) ∧
    ((runSentStyle (parsePdfText_S1 r) moveOk files).records =
      files.filterMap (fun f => (f.text.bind (parsePdfText_S1 r)).map (addUploadFields f))) ∧
    ((runReceivedStyle parsePdfText_RV moveOk files).records =
      files.filterMap (fun f => (f.text.bind parsePdfText_RV).map (addUploadFields f))) := by
  refine ⟨?_, ?_, ?_, ?_⟩
  · rw [parsePdfText_S1]
    exact validity_isSome _ _
  · rw [parsePdfText_RV]
    exact validity_isSome _ _
  · rw [runSentStyle]
    exact runSentLoop_records _ _ _
  · rw [runReceivedStyle]
    exact runRecvLoop_records _ _ _

/-- C9: the upload list is computed from extraction and parse outcomes alone:
a record of a successful parse is pushed before the relocation is attempted,
so the records of a run are identical under any two relocation oracles and
equal the successful parses of the input files, in the sent.js and
received.js runs alike. -/
theorem uploadList_independent_of_relocation (r : RandSrc) (files : List FileInput)
    (mo1 mo2 : String → Bool) :
    ((runSentStyle (parsePdfText_S1 r) mo1 files).records =
      (runSentStyle (parsePdfText_S1 r) mo2 files).records) ∧
    ((runReceivedStyle parsePdfText_RV mo1 files).records =
      (runReceivedStyle parsePdfText_RV mo2 files).records) ∧
    ((runSentStyle (parsePdfText_S1 r) mo1 files).records =
      files.filterMap (fun f => (f.text.bind (parsePdfText_S1 r)).map (addUploadFields f))) := by
  have hs1 : (runSentStyle (parsePdfText_S1 r) mo1 files).records =
      files.filterMap (fun f => (f.text.bind (parsePdfText_S1 r)).map (addUploadFields f)) := by
    rw [runSentStyle]
    exact runSentLoop_records _ _ _
  have hs2 : (runSentStyle (parsePdfText_S1 r) mo2 files).records =
      files.filterMap (fun f => (f.text.bind (parsePdfText_S1 r)).map (addUploadFields f)) := by
    rw [runSentStyle]
    exact runSentLoop_records _ _ _
  have hr1 : (runReceivedStyle parsePdfText_RV mo1 files).records =
      files.filterMap (fun f => (f.text.bind parsePdfText_RV).map (addUploadFields f)) := by
    rw [runReceivedStyle]
    exact runRecvLoop_records _ _ _
  have hr2 : (runReceivedStyle parsePdfText_RV mo2 files).records =
      files.filterMap (fun f => (f.text.bind parsePdfText_RV).map (addUploadFields f)) := by
    rw [runReceivedStyle]
    exact runRecvLoop_records _ _ _
  exact ⟨hs1.trans hs2.symm, hr1.trans hr2.symm, hs1⟩

lemma mem_failNames_of_fail (parse : String → Option Record) {files : List FileInput}
    {f : FileInput} (hf : f ∈ files) (hfail : f.text.bind parse = none) :
    f.name ∈ (files.filter (fun g => (g.text.bind parse).isNone)).map FileInput.name :=
  List.mem_map_of_mem _ (List.mem_filter.mpr ⟨hf, by simp [hfail]⟩)

lemma not_mem_processedNames (parse : String → Option Record) {files : List FileInput}
    (hnd : (files.map FileInput.name).Nodup)
    {f : FileInput} (hf : f ∈ files) (hfail : f.text.bind parse = none) :
    f.name ∉ (files.filter (fun g => (g.text.bind parse).isSome)).map FileInput.name := by
  intro hmem
  obtain ⟨g, hg, hgname⟩ := List.mem_map.mp hmem
  have hgf : g ∈ files := (List.mem_filter.mp hg).1
  have hgs : (g.text.bind parse).isSome = true := by
    simpa using (List.mem_filter.mp hg).2
  have hge : g = f := nodup_name_inj hnd hgf hf hgname
  rw [hge, hfail] at hgs
  simp at hgs

lemma procs_fails_disjoint (parse : String → Option Record) {files : List FileInput}
    (hnd : (files.map FileInput.name).Nodup) :
    ((files.filter (fun g => (g.text.bind parse).isSome)).map FileInput.name).filter
      (fun n => ((files.filter (fun g => (g.text.bind parse).isNone)).map
        FileInput.name).contains n) = [] := by
  rw [List.filter_eq_nil_iff]
  intro n hn hc
  obtain ⟨g, hg, rfl⟩ := List.mem_map.mp hn
  replace hc := List.elem_iff.mp hc
  obtain ⟨g2, hg2, he⟩ := List.mem_map.mp hc
  have hge : g2 = g :=
    nodup_name_inj hnd (List.mem_filter.mp hg2).1 (List.mem_filter.mp hg).1 he
  have h1 : (g.text.bind parse).isSome = true := by
    simpa using (List.mem_filter.mp hg).2
  have h2 : (g.text.bind parse).isNone = true := by
    have := (List.mem_filter.mp hg2).2
    rw [hge] at this
    simpa using this
  rw [Option.isNone_iff_eq_none.mp h2] at h1
  simp at h1

/-- C2 counterexample: src/unnamed/part_001 defines no failed folder and its
main never relocates failing files; on a one-file incoming set whose
extraction fails, the failed set stays empty after the run and the file
remains in the incoming folder, contradicting the claim that this holds in
every pipeline variant. -/
theorem failedFiles_counterexample :
    (runP001Style parsePdfText_P1 (fun _ => true) [⟨"doc1.pdf", none, "raw"⟩]).failed = [] ∧
    "doc1.pdf" ∉ (runP001Style parsePdfText_P1 (fun _ => true)
      [⟨"doc1.pdf", none, "raw"⟩]).failed ∧
    (runP001Style parsePdfText_P1 (fun _ => true)
      [⟨"doc1.pdf", none, "raw"⟩]).leftover = ["doc1.pdf"] ∧
    (runP001Style parsePdfText_P1 (fun _ => true)
      [⟨"doc1.pdf", none, "raw"⟩]).processed = [] :=
  ⟨by decide, by decide, by decide, by decide⟩

/-- C2 (amended): for every input file whose text extraction or parsing
fails, after a run in which every relocation succeeds: in the sent.js-style
runs (both sent.js documents and both part_000 documents share this loop
shape, here generic in the parser) and in the received.js run the file is in
the failed set and not in the processed set, and no file name is in both;
in the part_001 variant the failed set does not exist (it stays empty) and
the file remains in the incoming set, still outside the processed set. -/
theorem failedFiles_lifecycle (parse : String → Option Record) (files : List FileInput)
    (hnd : (files.map FileInput.name).Nodup)
    (f : FileInput) (hf : f ∈ files) (hfail : f.text.bind parse = none) :
    (f.name ∈ (runSentStyle parse (fun _ => true) files).failed ∧
     f.name ∉ (runSentStyle parse (fun _ => true) files).processed ∧
     (runSentStyle parse (fun _ => true) files).processed.filter
       (fun n => (runSentStyle parse (fun _ => true) files).failed.contains n) = []) ∧
    (f.name ∈ (runReceivedStyle parse (fun _ => true) files).failed ∧
     f.name ∉ (runReceivedStyle parse (fun _ => true) files).processed ∧
     (runReceivedStyle parse (fun _ => true) files).processed.filter
       (fun n => (runReceivedStyle parse (fun _ => true) files).failed.contains n) = []) ∧
    ((runP001Style parse (fun _ => true) files).failed = [] ∧
     f.name ∉ (runP001Style parse (fun _ => true) files).processed ∧
     f.name ∈ (runP001Style parse (fun _ => true) files).leftover) := by
  have hSentFailed : (runSentStyle parse (fun _ => true) files).failed =
      (files.filter (fun g => (g.text.bind parse).isNone)).map FileInput.name := by
    simp [runSentStyle, moveFails_true, runSentLoop_failedFiles]
  have hSentProc : (runSentStyle parse (fun _ => true) files).processed =
      (files.filter (fun g => (g.text.bind parse).isSome)).map FileInput.name := by
    simp [runSentStyle, runSentLoop_processedNames]
  have hRecvProc : (runReceivedStyle parse (fun _ => true) files).processed =
      (files.filter (fun g => (g.text.bind parse).isSome)).map FileInput.name := by
    simp [runReceivedStyle, runRecvLoop_processedNames]
  have hRecvFailed : (runReceivedStyle parse (fun _ => true) files).failed =
      (files.map FileInput.name).filter
        (fun n => !((runRecvLoop parse (fun _ => true) files).2.contains n)) := by
    simp [runReceivedStyle, moveFails_true]
  have hP1Proc : (runP001Style parse (fun _ => true) files).processed =
      (files.filter (fun g => (g.text.bind parse).isSome)).map FileInput.name := by
    simp [runP001Style, runRecvLoop_processedNames]
  have hP1Left : (runP001Style parse (fun _ => true) files).leftover =
      (files.map FileInput.name).filter
        (fun n => !((runRecvLoop parse (fun _ => true) files).2.contains n)) := by
    simp [runP001Style]
  have hnotproc : f.name ∉
      (files.filter (fun g => (g.text.bind parse).isSome)).map FileInput.name :=
    not_mem_processedNames parse hnd hf hfail
  have hcontains : (runRecvLoop parse (fun _ => true) files).2.contains f.name = false := by
    rw [runRecvLoop_processedNames]
    exact Bool.eq_false_iff.mpr (fun hc => hnotproc (List.elem_iff.mp hc))
  have hmemleft : f.name ∈ (files.map FileInput.name).filter
      (fun n => !((runRecvLoop parse (fun _ => true) files).2.contains n)) :=
    List.mem_filter.mpr ⟨List.mem_map_of_mem _ hf, by rw [hcontains]; rfl⟩
  refine ⟨⟨?_, ?_, ?_⟩, ⟨?_, ?_, ?_⟩, ⟨?_, ?_, ?_⟩⟩
  · rw [hSentFailed]
    exact mem_failNames_of_fail parse hf hfail
  · rw [hSentProc]
    exact hnotproc
  · rw [hSentFailed, hSentProc]
    exact procs_fails_disjoint parse hnd
  · rw [hRecvFailed]
    exact hmemleft
  · rw [hRecvProc]
    exact hnotproc
  · rw [hRecvProc, hRecvFailed, List.filter_eq_nil_iff]
    intro n hn hc
    replace hc := List.elem_iff.mp hc
    have hprop := (List.mem_filter.mp hc).2
    rw [runRecvLoop_processedNames] at hprop
    simp only [Bool.not_eq_true'] at hprop
    exact absurd hn (fun hmem => by
      rw [Bool.eq_false_iff] at hprop
      exact hprop (List.elem_iff.mpr hmem))
  · simp [runP001Style]
  · rw [hP1Proc]
    exact hnotproc
  · rw [hP1Left]
    exact hmemleft

/-- Witness for C2 (amended) on a two-file incoming set whose first file
fails extraction and whose second parses successfully. -/
theorem failedFiles_lifecycle_witness :
    ("bad.pdf" ∈ (runSentStyle parsePdfText_RV (fun _ => true)
       [⟨"bad.pdf", none, "x"⟩]).failed ∧
     "bad.pdf" ∉ (runSentStyle parsePdfText_RV (fun _ => true)
       [⟨"bad.pdf", none, "x"⟩]).processed ∧
     (runSentStyle parsePdfText_RV (fun _ => true)
       [⟨"bad.pdf", none, "x"⟩]).processed.filter
       (fun n => (runSentStyle parsePdfText_RV (fun _ => true)
         [⟨"bad.pdf", none, "x"⟩]).failed.contains n) = []) ∧
    ("bad.pdf" ∈ (runReceivedStyle parsePdfText_RV (fun _ => true)
       [⟨"bad.pdf", none, "x"⟩]).failed ∧
     "bad.pdf" ∉ (runReceivedStyle parsePdfText_RV (fun _ => true)
       [⟨"bad.pdf", none, "x"⟩]).processed ∧
     (runReceivedStyle parsePdfText_RV (fun _ => true)
       [⟨"bad.pdf", none, "x"⟩]).processed.filter
       (fun n => (runReceivedStyle parsePdfText_RV (fun _ => true)
         [⟨"bad.pdf", none, "x"⟩]).failed.contains n) = []) ∧
    ((runP001Style parsePdfText_RV (fun _ => true)
       [⟨"bad.pdf", none, "x"⟩]).failed = [] ∧
     "bad.pdf" ∉ (runP001Style parsePdfText_RV (fun _ => true)
       [⟨"bad.pdf", none, "x"⟩]).processed ∧
     "bad.pdf" ∈ (runP001Style parsePdfText_RV (fun _ => true)
       [⟨"bad.pdf", none, "x"⟩]).leftover) :=
  failedFiles_lifecycle parsePdfText_RV [⟨"bad.pdf", none, "x"⟩] (by decide)
    ⟨"bad.pdf", none, "x"⟩ (by decide) rfl

lemma jsDaysInMonth_eq_monthLen (y k : Int) (hy : 100 ≤ y) (hk1 : 1 ≤ k) (hk2 : k ≤ 12) :
    jsDaysInMonth y k = monthLen y k := by
  have hq : ¬(0 ≤ y ∧ y ≤ 99) := by omega
  rw [jsDaysInMonth]
  simp only [hq, if_false]
  interval_cases k <;>
    simp [show Int.fdiv 1 12 = 0 from by decide, show Int.fmod 1 12 = 1 from by decide,
      show Int.fdiv 2 12 = 0 from by decide, show Int.fmod 2 12 = 2 from by decide,
      show Int.fdiv 3 12 = 0 from by decide, show Int.fmod 3 12 = 3 from by decide,
      show Int.fdiv 4 12 = 0 from by decide, show Int.fmod 4 12 = 4 from by decide,
      show Int.fdiv 5 12 = 0 from by decide, show Int.fmod 5 12 = 5 from by decide,
      show Int.fdiv 6 12 = 0 from by decide, show Int.fmod 6 12 = 6 from by decide,
      show Int.fdiv 7 12 = 0 from by decide, show Int.fmod 7 12 = 7 from by decide,
      show Int.fdiv 8 12 = 0 from by decide, show Int.fmod 8 12 = 8 from by decide,
      show Int.fdiv 9 12 = 0 from by decide, show Int.fmod 9 12 = 9 from by decide,
      show Int.fdiv 10 12 = 0 from by decide, show Int.fmod 10 12 = 10 from by decide,
      show Int.fdiv 11 12 = 0 from by decide, show Int.fmod 11 12 = 11 from by decide,
      show Int.fdiv 12 12 = 1 from by decide, show Int.fmod 12 12 = 0 from by decide]

lemma sentV1Adjust_eq_prev (m d y : Int) (hm1 : 1 ≤ m) (hm2 : m ≤ 12)
    (hd1 : 1 ≤ d) (hy : 101 ≤ y) :
    sentV1Adjust m d y = prevCalendarDay y m d := by
  simp only [sentV1Adjust, prevCalendarDay]
  split_ifs <;>
    first
      | omega
      | rfl
      | rw [jsDaysInMonth_eq_monthLen y (m - 1) (by omega) (by omega) (by omega)]
      | rw [jsDaysInMonth_eq_monthLen (y - 1) 12 (by omega) (by omega) (by omega)]

/-- C4: in the Sent date-only variant, for every text whose Exam Date pattern
matches a valid calendar date M/D/YYYY (year at least 0101, so that the Date
constructor quirk for two-digit years is out of range), the parser produces
createdAt equal to the calendar predecessor of the matched date (day
underflow rolling back to the last-day count of the previous month, month
underflow to December of the previous year) formatted as
YYYY-MM-DD HH:MM:SS, with an hour drawn from [8,17) and minutes and seconds
drawn from [0,60), given that the three Math.random() draws lie in [0,1). -/
theorem sentDateOnly_createdAt (r : RandSrc) (hr : r.Valid) (t cap : String)
    (m d y : Int)
    (hcap : sentV1ExamCapture t = some cap)
    (hsplit : (splitSlash cap.toList).map (fun s => jsNumber s.asString) = [m, d, y])
    (hm1 : 1 ≤ m) (hm2 : m ≤ 12) (hd1 : 1 ≤ d) (hd2 : d ≤ monthLen y m)
    (hy : 101 ≤ y) :
    8 ≤ (getRandomTime r).1 ∧ (getRandomTime r).1 < 17 ∧
    (getRandomTime r).2.1 < 60 ∧ (getRandomTime r).2.2 < 60 ∧
    (buildRecord_S1 r t).createdAt =
      some (fmtYMDHMS (prevCalendarDay y m d) (getRandomTime r)) := by
  obtain ⟨hb1, hb2, hb3, hb4⟩ := getRandomTime_bounds r hr
  refine ⟨hb1, hb2, hb3, hb4, ?_⟩
  show sentV1CreatedAt r t = _
  simp only [sentV1CreatedAt, hcap, hsplit]
  rw [sentV1Adjust_eq_prev m d y hm1 hm2 hd1 hy]

/-- Witness for C4 on the text Exam Date: 3/1/2024 (exercising the day
underflow into the 29-day February of 2024) with draws 1/2, 1/3, 2/3. -/
theorem sentDateOnly_createdAt_witness :
    8 ≤ (getRandomTime rand1).1 ∧ (getRandomTime rand1).1 < 17 ∧
    (getRandomTime rand1).2.1 < 60 ∧ (getRandomTime rand1).2.2 < 60 ∧
    (buildRecord_S1 rand1 "Exam Date: 3/1/2024").createdAt =
      some (fmtYMDHMS (prevCalendarDay 2024 3 1) (getRandomTime rand1)) :=
  sentDateOnly_createdAt rand1 (by decide) "Exam Date: 3/1/2024" "3/1/2024" 3 1 2024
    (by decide) (by decide) (by decide) (by decide) (by decide) (by decide) (by decide)

/-- C6 counterexample: the timestamp pattern of src/unnamed/part_001 (line
53) is [P]M only; on a text carrying the AM timestamp 1/2/2024 3:00 AM the
part_001 parser extracts no createdAt, while the pattern shared by the other
date+time variants accepts the same text, so the claim that the matching
pattern accepts both AM and PM timestamps fails for the part_001 variant. -/
theorem hourConversion_counterexample :
    (buildRecord_P1 "1/2/2024 3:00 AM").createdAt = none ∧
    (buildRecord_RV "1/2/2024 3:00 AM").createdAt = some "2024-01-02 03:00:00" :=
  ⟨by decide, by decide⟩

/-- C6 (amended): in the date+time variants of src/sent.js, src/received.js
and src/unnamed/part_000 the shared 12-to-24-hour conversion maps 12 AM to
hour 0, keeps 12 PM at 12, adds 12 to every other PM hour and keeps every
other AM hour, and the shared pattern accepts both AM and PM timestamps; the
date+time variant of src/unnamed/part_001 accepts only PM timestamps. -/
theorem hourConversion_amended (h : Nat) (hh1 : 1 ≤ h) (hh2 : h ≤ 12) :
    adjustHour 12 "AM" = 0 ∧
    adjustHour 12 "PM" = 12 ∧
    (h ≠ 12 → adjustHour h "PM" = h + 12) ∧
    (h ≠ 12 → adjustHour h "AM" = h) ∧
    (buildRecord_RV "1/2/2024 3:00 AM").createdAt = some "2024-01-02 03:00:00" ∧
    (buildRecord_RV "1/2/2024 3:07 PM").createdAt = some "2024-01-02 15:07:00" ∧
    (buildRecord_SV2 "1/2/2024 3:00 AM").createdAt = some "2024-01-02 03:00:00" ∧
    (buildRecord_P1 "1/2/2024 3:07 PM").createdAt = some "2024-01-02 15:07:00" ∧
    (buildRecord_P1 "1/2/2024 3:00 AM").createdAt = none := by
  refine ⟨by decide, by decide, ?_, ?_, by decide, by decide, by decide, by decide, by decide⟩
  · intro hne
    simp [adjustHour, hne]
  · intro hne
    simp [adjustHour, hne]

/-- Witness for C6 (amended) at the clock hour 7. -/
theorem hourConversion_amended_witness :
    adjustHour 12 "AM" = 0 ∧
    adjustHour 12 "PM" = 12 ∧
    (7 ≠ 12 → adjustHour 7 "PM" = 7 + 12) ∧
    (7 ≠ 12 → adjustHour 7 "AM" = 7) ∧
    (buildRecord_RV "1/2/2024 3:00 AM").createdAt = some "2024-01-02 03:00:00" ∧
    (buildRecord_RV "1/2/2024 3:07 PM").createdAt = some "2024-01-02 15:07:00" ∧
    (buildRecord_SV2 "1/2/2024 3:00 AM").createdAt = some "2024-01-02 03:00:00" ∧
    (buildRecord_P1 "1/2/2024 3:07 PM").createdAt = some "2024-01-02 15:07:00" ∧
    (buildRecord_P1 "1/2/2024 3:00 AM").createdAt = none :=
  hourConversion_amended 7 (by decide) (by decide)

/-- C7 counterexample: the Received variant embedded in src/sent.js extracts
the sender with the bare PHYSICIAN NAME pattern only: on a text whose
PHYSICIAN INFORMATION block carries a credentialled name matched by the
primary pattern, that variant extracts nothing, so it does not try the
primary pattern first; and the primary pattern rejects the bare NP
credential that the claim lists, falling through on JANE ROE NP. -/
theorem physicianFallback_counterexample :
    (buildRecord_SV2 "PHYSICIAN INFORMATION JOHN SMITH MD").sender = none ∧
    reFindS physInfoPre physInfoGrp "PHYSICIAN INFORMATION JOHN SMITH MD" =
      some "JOHN SMITH MD" ∧
    reFindS physInfoPre physInfoGrp "PHYSICIAN INFORMATION JANE ROE NP" = none :=
  ⟨by decide, by decide, by decide⟩

/-- C7 (amended): in src/received.js and src/unnamed/part_001 the sender
extraction is: the primary PHYSICIAN INFORMATION pattern with the credential
alternation MD, M.D., DO, D.O., APN, N.P., M.D, D.O, APRN, APRN. (bare NP is
not among them) first, the bare PHYSICIAN NAME pattern only on its failure,
the first matching pattern winning with no further fallback; the Received
variant embedded in src/sent.js uses only the bare PHYSICIAN NAME pattern. -/
theorem physicianFallback_amended (t : String) :
    ((buildRecord_RV t).sender =
      (match reFindS physInfoPre physInfoGrp (normalizeText t) with
        | some cap => some (jsTrim cap)
        | none => (reFindS physNamePre physNameGrp (normalizeText t)).map jsTrim)) ∧
    ((buildRecord_P1 t).sender =
      (match reFindS physInfoPre physInfoGrp (normalizeText t) with
        | some cap => some (jsTrim cap)
        | none => (reFindS physNamePre physNameGrp (normalizeText t)).map jsTrim)) ∧
    ((buildRecord_SV2 t).sender =
      (reFindS physNamePre physNameGrp (normalizeText t)).map jsTrim) ∧
    (buildRecord_RV "PHYSICIAN INFORMATION JANE DOE MD PHYSICIAN NAME: BOB").sender =
      some "JANE DOE MD" ∧
    (buildRecord_RV "PHYSICIAN INFORMATION JOHN SMITH PHYSICIAN NAME: BOB").sender =
      some "BOB" ∧
    (buildRecord_RV "NOTHING HERE").sender = none :=
  ⟨rfl, rfl, rfl, by decide, by decide, by decide⟩

/-- C8 counterexample: a document whose text contains both
Exam Date: 3/15/2024 and Fax: 207-555-1234 but also an earlier
Exam Date: 1/1/2020: the leftmost match wins, the record is valid and its
createdAt carries the date 2019-12-31, not 2024-03-14, so the claim
quantified over every document containing those substrings fails. -/
theorem sentScenario_counterexample :
    hasInfix ("Exam Date: 3/15/2024".toList)
      ("Exam Date: 1/1/2020 Exam Date: 3/15/2024 Fax: 207-555-1234".toList) = true ∧
    hasInfix ("Fax: 207-555-1234".toList)
      ("Exam Date: 1/1/2020 Exam Date: 3/15/2024 Fax: 207-555-1234".toList) = true ∧
    (buildRecord_S1 rand0
      "Exam Date: 1/1/2020 Exam Date: 3/15/2024 Fax: 207-555-1234").createdAt =
      some "2019-12-31 08:00:00" ∧
    (buildRecord_S1 rand0
      "Exam Date: 1/1/2020 Exam Date: 3/15/2024 Fax: 207-555-1234").from_ =
      some "(207) 555 - 1234" ∧
    (parsePdfText_S1 rand0
      "Exam Date: 1/1/2020 Exam Date: 3/15/2024 Fax: 207-555-1234").isSome = true :=
  ⟨by decide, by decide, by decide, by decide, by decide⟩

/-- C8 (amended): under the Sent date-only profile, for every document whose
first Exam Date match is 3/15/2024 and whose first fax capture cleans to the
digits 2075551234, with Math.random() draws in [0,1): the record has from
equal to (207) 555 - 1234, the fixed sender RIGHT CHOICE MEDICAL SUPPLY, the
fixed to value, createdAt on the date 2024-03-14 (one day subtracted) with a
time whose hour lies in [8,17) and whose minutes and seconds lie in [0,60)
(that is, a time between 08:00:00 and 16:59:59), and with relocation
succeeding the source document ends in the processed set. -/
theorem sentScenario_amended (r : RandSrc) (hr : r.Valid) (t cap : String)
    (name content : String)
    (hdate : sentV1ExamCapture t = some "3/15/2024")
    (hfax : sentV1FaxCapture t = some cap)
    (hclean : cleanDigits cap = "2075551234") :
    (buildRecord_S1 r t).from_ = some "(207) 555 - 1234" ∧
    (buildRecord_S1 r t).sender = some "RIGHT CHOICE MEDICAL SUPPLY" ∧
    (buildRecord_S1 r t).to_ = some "(207) 261 - 0798" ∧
    (buildRecord_S1 r t).createdAt =
      some (fmtYMDHMS (2024, 3, 14) (getRandomTime r)) ∧
    8 ≤ (getRandomTime r).1 ∧ (getRandomTime r).1 < 17 ∧
    (getRandomTime r).2.1 < 60 ∧ (getRandomTime r).2.2 < 60 ∧
    (runSentStyle (parsePdfText_S1 r) (fun _ => true)
      [⟨name, some t, content⟩]).processed = [name] := by
  obtain ⟨hb1, hb2, hb3, hb4⟩ := getRandomTime_bounds r hr
  have hfrom : (buildRecord_S1 r t).from_ = some "(207) 555 - 1234" := by
    show (sentV1FaxCapture t).map _ = _
    rw [hfax, Option.map_some', hclean,
      show formatPhoneNumber "2075551234" = "(207) 555 - 1234" from by decide]
  have hcreated : (buildRecord_S1 r t).createdAt =
      some (fmtYMDHMS (2024, 3, 14) (getRandomTime r)) := by
    show sentV1CreatedAt r t = _
    simp only [sentV1CreatedAt, hdate,
      show (splitSlash ("3/15/2024" : String).toList).map (fun s => jsNumber s.asString) =
        [(3 : Int), 15, 2024] from by decide,
      show sentV1Adjust 3 15 2024 = ((2024 : Int), 3, 14) from by decide]
  have hsender : (buildRecord_S1 r t).sender = some "RIGHT CHOICE MEDICAL SUPPLY" := rfl
  have hvalid : parsePdfText_S1 r t = some (buildRecord_S1 r t) := by
    rw [parsePdfText_S1]
    rw [hcreated, hfrom, hsender]
    have hc1 : truthy (some (fmtYMDHMS (2024, 3, 14) (getRandomTime r))) = true := by
      simp [truthy, fmtYMDHMS_ne_empty]
    rw [hc1, show truthy (some "(207) 555 - 1234") = true from by decide,
      show truthy (some "RIGHT CHOICE MEDICAL SUPPLY") = true from by decide]
    rfl
  refine ⟨hfrom, hsender, rfl, hcreated, hb1, hb2, hb3, hb4, ?_⟩
  simp [runSentStyle, runSentLoop, hvalid]

/-- Witness for C8 (amended) on the document text
Exam Date: 3/15/2024 Fax: 207-555-1234 with draws 1/2, 1/3, 2/3. -/
theorem sentScenario_amended_witness :
    (buildRecord_S1 rand1 "Exam Date: 3/15/2024 Fax: 207-555-1234").from_ =
      some "(207) 555 - 1234" ∧
    (buildRecord_S1 rand1 "Exam Date: 3/15/2024 Fax: 207-555-1234").sender =
      some "RIGHT CHOICE MEDICAL SUPPLY" ∧
    (buildRecord_S1 rand1 "Exam Date: 3/15/2024 Fax: 207-555-1234").to_ =
      some "(207) 261 - 0798" ∧
    (buildRecord_S1 rand1 "Exam Date: 3/15/2024 Fax: 207-555-1234").createdAt =
      some (fmtYMDHMS (2024, 3, 14) (getRandomTime rand1)) ∧
    8 ≤ (getRandomTime rand1).1 ∧ (getRandomTime rand1).1 < 17 ∧
    (getRandomTime rand1).2.1 < 60 ∧ (getRandomTime rand1).2.2 < 60 ∧
    (runSentStyle (parsePdfText_S1 rand1) (fun _ => true)
      [⟨"scan.pdf", some "Exam Date: 3/15/2024 Fax: 207-555-1234", "bytes"⟩]).processed =
      ["scan.pdf"] :=
  sentScenario_amended rand1 (by decide) "Exam Date: 3/15/2024 Fax: 207-555-1234"
    "207-555-1234" "scan.pdf" "bytes" (by decide) (by decide) (by decide)
